import Mathlib

/-!
Verification of the recipe_finder repository.

Shallow embedding of the logic of `recipe_finder/utils.py`,
`recipe_finder/api_client.py` and the favorites-toggle fragment of
`recipe_finder/main.py`.  Numeric JSON amounts (Python floats/ints) are
modelled as rationals; epoch times (`time.time()`) as rationals; the
in-memory cache dictionary as a function from keys to optional entries;
the favorites JSON file at the document level (Python's `json.dump` /
`json.load` round-trip JSON-serializable values, a contract of the
standard library, so the file is modelled as holding the decoded
document rather than its byte serialization).
-/

namespace RecipeFinder

/-- One entry of a recipe's `extendedIngredients` list: an amount
(possibly `null` in the JSON), a unit and a name (data model of the
spec, consumed by `calculate_difficulty` and the display code). -/
structure Ingredient where
  amount : Option ℚ
  unit : String
  name : String
deriving DecidableEq, Repr

/-- One `{name, amount, unit}` nutrient record of the `nutrition.nutrients`
list consumed by `parse_nutritional_info`. -/
structure Nutrient where
  name : String
  amount : ℚ
  unit : String
deriving DecidableEq, Repr

/-- The `nutrition` object of a recipe; `nutrients` is `none` when the
key is absent (Python `nutrition.get("nutrients", [])` defaults it to the
empty list). -/
structure Nutrition where
  nutrients : Option (List Nutrient)
deriving DecidableEq, Repr

/-- A recipe record as described by the spec's data model: integer id,
title, optional ready-in-minutes, servings, cuisines, source fields,
ingredient list, instructions and optional nutrition data.  Fields that
the Python code reads with `recipe.get(key, default)` are `Option`s,
with `none` standing for an absent key. -/
structure Recipe where
  id : Int
  title : String
  readyInMinutes : Option ℚ
  servings : Option ℚ
  cuisines : List String
  sourceName : Option String
  sourceUrl : Option String
  extendedIngredients : Option (List Ingredient)
  instructions : Option String
  nutrition : Option Nutrition
deriving DecidableEq, Repr

/-! ### Difficulty analyzer (`utils.calculate_difficulty`) -/

/-- Embedding of `utils.calculate_difficulty`: tiered thresholding on
cook time (`recipe.get("readyInMinutes", 0)`) and ingredient count
(`len(recipe.get("extendedIngredients", []))`). -/
def calculate_difficulty (recipe : Recipe) : String :=
  let cooking_time : ℚ := recipe.readyInMinutes.getD 0
  let ingredient_count : ℕ := (recipe.extendedIngredients.getD []).length
  if cooking_time > 60 ∨ ingredient_count > 15 then "Hard"
  else if cooking_time > 30 ∨ ingredient_count > 10 then "Medium"
  else "Easy"

/-! ### Nutrition analyzer (`utils.parse_nutritional_info`) -/

/-- Lookup in the dictionary `{n["name"]: (n["amount"], n["unit"]) for n in
nutrients}` built by `parse_nutritional_info`, with a Python `.get`
default: a dict comprehension keeps the LAST record for a repeated name,
hence the `reverse.find?`. -/
def nutrientLookup (nutrition : Nutrition) (name : String) (default : ℚ × String) : ℚ × String :=
  match (nutrition.nutrients.getD []).reverse.find? (fun n => n.name == name) with
  | some n => (n.amount, n.unit)
  | none => default

/-- Result record of `parse_nutritional_info`.  The Python code renders
`calories` as the string `f"{amount} {unit}"`; we keep the underlying
pair, leaving only the string formatting out of the model. -/
structure NutritionSummary where
  calories : ℚ × String
  health_metrics : List String
  nutrition_score : ℕ
deriving DecidableEq, Repr

/-- Embedding of `utils.parse_nutritional_info`: looks up the four named
nutrients (with the code's defaults), collects qualitative flags, and
derives a score of 50 plus additive bonuses, capped at 100. -/
def parse_nutritional_info (nutrition : Nutrition) : NutritionSummary :=
  let calories := nutrientLookup nutrition "Calories" (0, "kcal")
  let protein := nutrientLookup nutrition "Protein" (0, "g")
  let sodium := nutrientLookup nutrition "Sodium" (0, "mg")
  let vitamin_a := nutrientLookup nutrition "Vitamin A" (0, "% of Daily Needs")
  let health_metrics : List String :=
    (if protein.1 > 25 then ["✅ High in Protein"] else []) ++
    (if vitamin_a.1 > 20 then ["✅ Good source of Vitamin A"] else []) ++
    (if sodium.1 > 1000 then ["⚠️ High in Sodium"] else [])
  let score : ℕ :=
    50 + (if protein.1 > 25 then 15 else 0) + (if vitamin_a.1 > 20 then 15 else 0) +
      (if sodium.1 < 500 then 20 else 0) + (if calories.1 < 500 then 10 else 0)
  { calories := calories
    health_metrics := health_metrics
    nutrition_score := min score 100 }

/-! ### Cache (`utils.get_from_cache` / `utils.set_in_cache`) -/

/-- The payload both call sites store in the cache: a list of detailed
recipe records. -/
abbrev CacheData := List Recipe

/-- A value of the module-level `api_cache` dictionary: the stored data
together with the `time.time()` timestamp recorded by `set_in_cache`. -/
structure CacheEntry where
  data : CacheData
  timestamp : ℚ
deriving DecidableEq, Repr

/-- `utils.CACHE_DURATION`: cache API calls for one hour. -/
def CACHE_DURATION : ℚ := 3600

/-- The `api_cache` dictionary, as a map from keys to optional entries. -/
def Cache : Type := String → Option CacheEntry

/-- The initial empty `api_cache = {}`. -/
def emptyCache : Cache := fun _ => none

/-- Embedding of `utils.set_in_cache`: stores the data with the current
time as its timestamp (the current time is passed explicitly). -/
def set_in_cache (cache : Cache) (key : String) (data : CacheData) (now : ℚ) : Cache :=
  fun k => if k = key then some { data := data, timestamp := now } else cache k

/-- Embedding of `utils.get_from_cache`: returns the data if the key is
present and `now - timestamp < CACHE_DURATION`, else `none`. -/
def get_from_cache (cache : Cache) (key : String) (now : ℚ) : Option CacheData :=
  match cache key with
  | some entry => if now - entry.timestamp < CACHE_DURATION then some entry.data else none
  | none => none

/-! ### Favorites store (`utils.load_favorites` / `utils.save_favorites`) -/

/-- State of the favorites JSON file, abstracted at the document level:
`missing` when `os.path.exists` is false, `malformed` when the content
raises `json.JSONDecodeError`, and `stored l` when the file holds the
valid JSON serialization of the favorites list `l` (Python's json module
round-trips JSON-serializable values between `dump` and `load`). -/
inductive FavoritesFile where
  | missing : FavoritesFile
  | malformed : FavoritesFile
  | stored (favorites : List Recipe) : FavoritesFile
deriving DecidableEq, Repr

/-- Embedding of `utils.load_favorites`: empty list when the file is
missing or its content fails to decode, else the decoded records. -/
def load_favorites : FavoritesFile → List Recipe
  | .missing => []
  | .malformed => []
  | .stored favorites => favorites

/-- Embedding of `utils.save_favorites`: overwrites the file wholesale
with the serialized list, whatever its previous state. -/
def save_favorites (favorites : List Recipe) (_file : FavoritesFile) : FavoritesFile :=
  .stored favorites

/-! ### Favorites toggle (`main.view_recipe_details`, option 1) -/

/-- Embedding of the favorites mutation in `main.view_recipe_details`:
`is_favorite` is `any(fav["id"] == recipe["id"] for fav in favorites)`;
choosing option 1 then either filters out every record with the
recipe's id or appends the recipe at the end. -/
def toggle_favorite (favorites : List Recipe) (recipe : Recipe) : List Recipe :=
  let is_favorite := favorites.any (fun fav => fav.id == recipe.id)
  if is_favorite then
    favorites.filter (fun fav => fav.id != recipe.id)
  else
    favorites ++ [recipe]

/-- Favorites lists reachable from the empty store by toggle operations. -/
inductive ReachableFavorites : List Recipe → Prop where
  | empty : ReachableFavorites []
  | toggle (l : List Recipe) (r : Recipe) :
      ReachableFavorites l → ReachableFavorites (toggle_favorite l r)

/-! ### API client (`api_client.py`) -/

/-- A JSON document, as returned by `response.json()`. -/
inductive Json where
  | null : Json
  | bool (b : Bool) : Json
  | num (q : ℚ) : Json
  | str (s : String) : Json
  | arr (elems : List Json) : Json
  | obj (fields : List (String × Json)) : Json

/-- A value of the `params` dict passed to `requests.get`: the code uses
strings, integers and the boolean `True`. -/
inductive ParamValue where
  | str (s : String) : ParamValue
  | num (n : Int) : ParamValue
  | bool (b : Bool) : ParamValue
deriving DecidableEq, Repr

/-- The HTTP GET request issued by one client operation: its URL and its
query parameters. -/
structure Request where
  url : String
  params : List (String × ParamValue)
deriving DecidableEq, Repr

/-- Outcome of one `requests.get` call.  `requestError` is a raised
`requests.exceptions.RequestException` (connection failure, timeout,
and the like); `response status body` is a completed HTTP response,
where `body = none` means the body is not valid JSON (so
`response.json()` raises, which is also caught as a request
exception). -/
inductive HttpOutcome where
  | response (status : ℕ) (body : Option Json) : HttpOutcome
  | requestError : HttpOutcome

/-- The network, as an oracle assigning an outcome to each request. -/
def HttpOracle : Type := Request → HttpOutcome

/-- `api_client.BASE_URL`. -/
def BASE_URL : String := "https://api.spoonacular.com"

/-- The shared `try: get / raise_for_status / json` and
`except RequestException: print, return None` body of the three client
operations.  `raise_for_status` raises `HTTPError` exactly for status
codes 400 to 599; a raised exception is caught and turned into `none`. -/
def tryGetJson (oracle : HttpOracle) (req : Request) : Option Json :=
  match oracle req with
  | .requestError => none
  | .response status body =>
      if 400 ≤ status ∧ status < 600 then none else body

/-- The request built by `api_client.search_recipes_by_ingredients`:
endpoint `/recipes/findByIngredients` with the comma-joined ingredient
list, the result count and the API key. -/
def searchByIngredientsRequest (apiKey : String) (ingredients : List String)
    (number : Int) : Request :=
  { url := BASE_URL ++ "/recipes/findByIngredients"
    params := [("ingredients", .str (String.intercalate "," ingredients)),
               ("number", .num number), ("apiKey", .str apiKey)] }

/-- Embedding of `api_client.search_recipes_by_ingredients` (the Python
default for `number` is 7, passed explicitly here). -/
def search_recipes_by_ingredients (oracle : HttpOracle) (apiKey : String)
    (ingredients : List String) (number : Int) : Option Json :=
  tryGetJson oracle (searchByIngredientsRequest apiKey ingredients number)

/-- The request built by `api_client.find_recipes_by_cuisine`: endpoint
`/recipes/complexSearch`; the `type` parameter is added only when
`meal_type` is truthy (neither `None` nor the empty string). -/
def findByCuisineRequest (apiKey : String) (cuisine : String)
    (meal_type : Option String) (number : Int) : Request :=
  { url := BASE_URL ++ "/recipes/complexSearch"
    params := [("cuisine", .str cuisine), ("number", .num number),
               ("apiKey", .str apiKey)] ++
      (match meal_type with
       | some mt => if mt = "" then [] else [("type", .str mt)]
       | none => []) }

/-- Embedding of `api_client.find_recipes_by_cuisine` (the Python
default for `number` is 5, passed explicitly here). -/
def find_recipes_by_cuisine (oracle : HttpOracle) (apiKey : String)
    (cuisine : String) (meal_type : Option String) (number : Int) : Option Json :=
  tryGetJson oracle (findByCuisineRequest apiKey cuisine meal_type number)

/-- The request built by `api_client.get_recipe_details`: endpoint
`/recipes/{id}/information` with nutrition included. -/
def getRecipeDetailsRequest (apiKey : String) (recipe_id : Int) : Request :=
  { url := BASE_URL ++ "/recipes/" ++ toString recipe_id ++ "/information"
    params := [("includeNutrition", .bool true), ("apiKey", .str apiKey)] }

/-- Embedding of `api_client.get_recipe_details`. -/
def get_recipe_details (oracle : HttpOracle) (apiKey : String)
    (recipe_id : Int) : Option Json :=
  tryGetJson oracle (getRecipeDetailsRequest apiKey recipe_id)

/-- The error contract one client operation is claimed to satisfy,
relating its result to the outcome of its request: a successful
response (status below 400) with a parseable body is returned parsed; a
raised request exception, an error status (400 to 599), or an
unparseable body each yield `none`. -/
def clientContract (result : Option Json) (outcome : HttpOutcome) : Prop :=
  (∀ status body, outcome = .response status (some body) → status < 400 →
      result = some body) ∧
  (outcome = .requestError → result = none) ∧
  (∀ status body, outcome = .response status body → 400 ≤ status → status < 600 →
      result = none) ∧
  (∀ status, outcome = .response status none → result = none)

/-! ### Cache key construction (`main.search_by_ingredients`, line 73) -/

/-- Embedding of the cache key built by `main.search_by_ingredients`:
the f-string `ingredients_` followed by the comma-join of the sorted
ingredient list (Python `sorted` is a stable sort under lexicographic
string order, as is `List.mergeSort` under the order on `String`). -/
def ingredients_cache_key (ingredients : List String) : String :=
  "ingredients_" ++ String.intercalate "," (ingredients.mergeSort (fun a b => decide (a ≤ b)))

/-! ### Concrete test fixtures -/

/-- A minimal ingredient record, for building concrete test recipes. -/
def blankIngredient : Ingredient := { amount := none, unit := "", name := "" }

/-- A concrete recipe with the given cook time and ingredient list and
all other fields trivial, for evaluating the analyzer on the spec's
examples. -/
def testRecipe (time : Option ℚ) (ingredients : List Ingredient) : Recipe :=
  { id := 0, title := "", readyInMinutes := time, servings := none, cuisines := [],
    sourceName := none, sourceUrl := none, extendedIngredients := some ingredients,
    instructions := none, nutrition := none }

/-- The spec's nutrition example: protein 30 g, vitamin A 25 %, sodium
200 mg, calories 400. -/
def exampleNutrition : Nutrition :=
  { nutrients := some
      [{ name := "Protein", amount := 30, unit := "g" },
       { name := "Vitamin A", amount := 25, unit := "% of Daily Needs" },
       { name := "Sodium", amount := 200, unit := "mg" },
       { name := "Calories", amount := 400, unit := "kcal" }] }

/-! ### Claim theorems -/

/-- C1: a `set_in_cache` at time `s` followed by `get_from_cache` of the
same key at time `t` with `t - s < 3600` returns the stored data; a key
whose entry carries timestamp `s` read at any `t` with `t - s ≥ 3600`
yields `none`; a key not in the cache yields `none`. -/
theorem cache_expiry_contract (cache : Cache) (key : String) (data : CacheData)
    (s t : ℚ) :
    (t - s < 3600 →
      get_from_cache (set_in_cache cache key data s) key t = some data) ∧
    (∀ entry, cache key = some entry → 3600 ≤ t - entry.timestamp →
      get_from_cache cache key t = none) ∧
    (cache key = none → get_from_cache cache key t = none) := by
  refine ⟨fun h => ?_, fun entry he h => ?_, fun h => ?_⟩
  · simp [get_from_cache, set_in_cache, CACHE_DURATION, h]
  · simp [get_from_cache, he, CACHE_DURATION, not_lt.mpr h]
  · simp [get_from_cache, h]

/-- Witness for C1 at concrete inputs: a fresh entry read 10 seconds
later is returned, an entry stored at time 0 read at time 3600 is
expired, and an unset key misses. -/
theorem cache_expiry_contract_witness :
    get_from_cache (set_in_cache emptyCache "k" [] 0) "k" 10 = some [] ∧
    get_from_cache (set_in_cache emptyCache "k" [] 0) "k" 3600 = none ∧
    get_from_cache emptyCache "other" 10 = none := by
  refine ⟨(cache_expiry_contract emptyCache "k" [] 0 10).1 (by norm_num),
    (cache_expiry_contract (set_in_cache emptyCache "k" [] 0) "k" [] 0 3600).2.1
      { data := [], timestamp := 0 } (by simp [set_in_cache]) (by norm_num),
    (cache_expiry_contract emptyCache "other" [] 0 10).2.2 rfl⟩

/-- C2: `calculate_difficulty` returns Hard iff cook time exceeds 60 or
the ingredient count exceeds 15, Medium iff it is not Hard and cook time
exceeds 30 or the count exceeds 10, and Easy otherwise, with a missing
cook time read as 0 and a missing ingredient list as empty; moreover a
70-minute recipe is Hard, 40 minutes with 5 ingredients is Medium, and
10 minutes with 3 ingredients is Easy. -/
theorem calculate_difficulty_spec (recipe : Recipe) :
    (calculate_difficulty recipe = "Hard" ↔
      recipe.readyInMinutes.getD 0 > 60 ∨
        (recipe.extendedIngredients.getD []).length > 15) ∧
    (calculate_difficulty recipe = "Medium" ↔
      ¬(recipe.readyInMinutes.getD 0 > 60 ∨
          (recipe.extendedIngredients.getD []).length > 15) ∧
        (recipe.readyInMinutes.getD 0 > 30 ∨
          (recipe.extendedIngredients.getD []).length > 10)) ∧
    (calculate_difficulty recipe = "Easy" ↔
      ¬(recipe.readyInMinutes.getD 0 > 60 ∨
          (recipe.extendedIngredients.getD []).length > 15) ∧
        ¬(recipe.readyInMinutes.getD 0 > 30 ∨
          (recipe.extendedIngredients.getD []).length > 10)) ∧
    calculate_difficulty (testRecipe (some 70) []) = "Hard" ∧
    calculate_difficulty (testRecipe (some 40) (List.replicate 5 blankIngredient))
      = "Medium" ∧
    calculate_difficulty (testRecipe (some 10) (List.replicate 3 blankIngredient))
      = "Easy" := by
  refine ⟨?_, ?_, ?_, by decide, by decide, by decide⟩ <;>
    · simp only [calculate_difficulty]
      split_ifs with h1 h2 <;> simp_all

/-- C3: the nutrition score is 50 plus 15 when protein exceeds 25, plus
15 when vitamin A exceeds 20, plus 20 when sodium is below 500, plus 10
when calories are below 500, capped at 100; on the spec's example input
(protein 30 g, vitamin A 25 %, sodium 200 mg, calories 400) it is 100. -/
theorem nutrition_score_formula (nutrition : Nutrition) :
    (parse_nutritional_info nutrition).nutrition_score =
      min (50 + (if (nutrientLookup nutrition "Protein" (0, "g")).1 > 25 then 15 else 0)
        + (if (nutrientLookup nutrition "Vitamin A" (0, "% of Daily Needs")).1 > 20
            then 15 else 0)
        + (if (nutrientLookup nutrition "Sodium" (0, "mg")).1 < 500 then 20 else 0)
        + (if (nutrientLookup nutrition "Calories" (0, "kcal")).1 < 500 then 10 else 0))
        100 ∧
    (parse_nutritional_info exampleNutrition).nutrition_score = 100 :=
  ⟨rfl, by decide⟩

/-- C10: for every nutrition input the score lies between 50 and 100;
the base of 50 can only grow, so values below 50 are unreachable. -/
theorem nutrition_score_bounds (nutrition : Nutrition) :
    50 ≤ (parse_nutritional_info nutrition).nutrition_score ∧
    (parse_nutritional_info nutrition).nutrition_score ≤ 100 := by
  simp only [parse_nutritional_info]
  exact ⟨le_min (by omega) (by norm_num), min_le_right _ _⟩

/-- A concrete recipe with the given id and all other fields trivial,
for exercising the favorites toggle on concrete inputs. -/
def favRecipe (i : Int) : Recipe :=
  { id := i, title := "", readyInMinutes := none, servings := none, cuisines := [],
    sourceName := none, sourceUrl := none, extendedIngredients := none,
    instructions := none, nutrition := none }

/-- C4: saving a favorites list and loading it back returns an equal
list, whatever the previous file state. -/
theorem favorites_roundtrip (favorites : List Recipe) (file : FavoritesFile) :
    load_favorites (save_favorites favorites file) = favorites := rfl

/-- C8: `load_favorites` returns the empty list when the file is
missing, the empty list when its content is not valid JSON, and the
decoded records otherwise. -/
theorem load_favorites_error_contract (file : FavoritesFile) :
    (file = .missing → load_favorites file = []) ∧
    (file = .malformed → load_favorites file = []) ∧
    (∀ favorites, file = .stored favorites → load_favorites file = favorites) := by
  refine ⟨fun h => ?_, fun h => ?_, fun favorites h => ?_⟩ <;> subst h <;> rfl

/-- Witness for C8 at the three concrete file states. -/
theorem load_favorites_error_contract_witness :
    load_favorites .missing = [] ∧
    load_favorites .malformed = [] ∧
    load_favorites (.stored [favRecipe 1]) = [favRecipe 1] :=
  ⟨(load_favorites_error_contract .missing).1 rfl,
   (load_favorites_error_contract .malformed).2.1 rfl,
   (load_favorites_error_contract (.stored [favRecipe 1])).2.2 [favRecipe 1] rfl⟩

/-- C5: when no stored record carries the recipe's id the toggle appends
the recipe at the end; when some record does, the toggle removes exactly
the records with that id, keeping the rest in order; and the
remove-by-id filter with an absent id is the identity. -/
theorem toggle_favorite_spec (favorites : List Recipe) (recipe : Recipe) :
    (¬(∃ fav ∈ favorites, fav.id = recipe.id) →
      toggle_favorite favorites recipe = favorites ++ [recipe]) ∧
    ((∃ fav ∈ favorites, fav.id = recipe.id) →
      toggle_favorite favorites recipe =
        favorites.filter (fun fav => fav.id != recipe.id)) ∧
    (¬(∃ fav ∈ favorites, fav.id = recipe.id) →
      favorites.filter (fun fav => fav.id != recipe.id) = favorites) := by
  refine ⟨fun h => ?_, fun h => ?_, fun h => ?_⟩
  · have hb : (favorites.any fun fav => fav.id == recipe.id) = false := by
      rw [List.any_eq_false]
      intro fav hfav hc
      exact h ⟨fav, hfav, by simpa using hc⟩
    simp [toggle_favorite, hb]
  · have hb : (favorites.any fun fav => fav.id == recipe.id) = true := by
      rw [List.any_eq_true]
      obtain ⟨fav, hfav, hid⟩ := h
      exact ⟨fav, hfav, by simpa using hid⟩
    simp [toggle_favorite, hb]
  · rw [List.filter_eq_self]
    intro fav hfav
    have : fav.id ≠ recipe.id := fun hc => h ⟨fav, hfav, hc⟩
    simpa using this

/-- Witness for C5: toggling into an empty list appends, toggling a
present id removes it, and filtering an absent id changes nothing. -/
theorem toggle_favorite_spec_witness :
    toggle_favorite [] (favRecipe 1) = [] ++ [favRecipe 1] ∧
    toggle_favorite [favRecipe 1] (favRecipe 1) =
      List.filter (fun fav => fav.id != (favRecipe 1).id) [favRecipe 1] ∧
    List.filter (fun fav => fav.id != (favRecipe 2).id) [favRecipe 1] = [favRecipe 1] :=
  ⟨(toggle_favorite_spec [] (favRecipe 1)).1 (by simp),
   (toggle_favorite_spec [favRecipe 1] (favRecipe 1)).2.1
     ⟨favRecipe 1, by simp, rfl⟩,
   (toggle_favorite_spec [favRecipe 1] (favRecipe 2)).2.2 (by decide)⟩

/-- C6: a toggle preserves pairwise-distinct ids, and every favorites
list reachable from the empty store by toggles has pairwise-distinct
ids. -/
theorem favorites_id_nodup_invariant :
    (∀ (favorites : List Recipe) (recipe : Recipe),
      (favorites.map Recipe.id).Nodup →
        ((toggle_favorite favorites recipe).map Recipe.id).Nodup) ∧
    (∀ favorites, ReachableFavorites favorites → (favorites.map Recipe.id).Nodup) := by
  have step : ∀ (favorites : List Recipe) (recipe : Recipe),
      (favorites.map Recipe.id).Nodup →
        ((toggle_favorite favorites recipe).map Recipe.id).Nodup := by
    intro favorites recipe h
    by_cases hb : (favorites.any fun fav => fav.id == recipe.id) = true
    · simp only [toggle_favorite, hb, if_true]
      exact List.Nodup.sublist
        (List.Sublist.map Recipe.id (List.filter_sublist favorites)) h
    · rw [Bool.not_eq_true, List.any_eq_false] at hb
      have hall : ∀ fav ∈ favorites, fav.id ≠ recipe.id := by
        intro fav hfav
        simpa using hb fav hfav
      simp only [toggle_favorite, List.any_eq_false.mpr hb, Bool.false_eq_true, if_false]
      rw [List.map_append, List.nodup_append]
      refine ⟨h, List.nodup_singleton _, ?_⟩
      intro a ha hy
      obtain ⟨fav, hfav, rfl⟩ := List.mem_map.mp ha
      have : fav.id = recipe.id := by simpa using hy
      exact hall fav hfav this
  refine ⟨step, fun favorites h => ?_⟩
  induction h with
  | empty => simp
  | toggle l r _ ih => exact step l r ih

/-- Witness for C6: one toggle on a nodup singleton, and the reachable
empty store. -/
theorem favorites_id_nodup_invariant_witness :
    ((toggle_favorite [favRecipe 1] (favRecipe 2)).map Recipe.id).Nodup ∧
    (([] : List Recipe).map Recipe.id).Nodup :=
  ⟨favorites_id_nodup_invariant.1 [favRecipe 1] (favRecipe 2) (by simp),
   favorites_id_nodup_invariant.2 [] ReachableFavorites.empty⟩

/-- C7: each of the three client operations returns the parsed body of a
successful response and `none` for every caught request error: a raised
request exception, an HTTP error status (400 to 599), or a body that is
not valid JSON. -/
theorem api_client_error_contract (oracle : HttpOracle) (apiKey : String)
    (ingredients : List String) (number : Int) (cuisine : String)
    (meal_type : Option String) (number2 : Int) (recipe_id : Int) :
    clientContract (search_recipes_by_ingredients oracle apiKey ingredients number)
      (oracle (searchByIngredientsRequest apiKey ingredients number)) ∧
    clientContract (find_recipes_by_cuisine oracle apiKey cuisine meal_type number2)
      (oracle (findByCuisineRequest apiKey cuisine meal_type number2)) ∧
    clientContract (get_recipe_details oracle apiKey recipe_id)
      (oracle (getRecipeDetailsRequest apiKey recipe_id)) := by
  have contract : ∀ req, clientContract (tryGetJson oracle req) (oracle req) := by
    intro req
    refine ⟨fun status body hres hlt => ?_, fun herr => ?_,
      fun status body hres h4 h6 => ?_, fun status hres => ?_⟩
    · simp only [tryGetJson, hres]
      rw [if_neg (by omega)]
    · simp only [tryGetJson, herr]
    · simp only [tryGetJson, hres]
      rw [if_pos ⟨h4, h6⟩]
    · simp only [tryGetJson, hres]
      split <;> rfl
  exact ⟨contract _, contract _, contract _⟩

/-- An oracle answering every request with HTTP 200 and an empty JSON
array, and one failing every request with a raised exception. -/
def successOracle : HttpOracle := fun _ => .response 200 (some (Json.arr []))

/-- An oracle raising a request exception on every request. -/
def failOracle : HttpOracle := fun _ => .requestError

/-- Witness for C7: a 200 response body is returned parsed, and a raised
exception becomes a null result. -/
theorem api_client_error_contract_witness :
    search_recipes_by_ingredients successOracle "key" ["a"] 7 = some (Json.arr []) ∧
    get_recipe_details failOracle "key" 1 = none :=
  ⟨(api_client_error_contract successOracle "key" ["a"] 7 "italian" none 5 1).1.1
      200 (Json.arr []) rfl (by norm_num),
   (api_client_error_contract failOracle "key" ["a"] 7 "italian" none 5 1).2.2.2.1 rfl⟩

/-- C9: the ingredients cache key is built from the sorted ingredient
list, so any two ingredient lists that are permutations of each other
produce the same key. -/
theorem ingredients_cache_key_perm_invariant (l₁ l₂ : List String) (h : l₁.Perm l₂) :
    ingredients_cache_key l₁ = ingredients_cache_key l₂ := by
  haveI : IsAntisymm String (fun a b => decide (a ≤ b) = true) :=
    ⟨fun a b h1 h2 => le_antisymm (of_decide_eq_true h1) (of_decide_eq_true h2)⟩
  have htrans : ∀ (a b c : String), decide (a ≤ b) = true → decide (b ≤ c) = true →
      decide (a ≤ c) = true := fun a b c h1 h2 =>
    decide_eq_true (le_trans (of_decide_eq_true h1) (of_decide_eq_true h2))
  have htotal : ∀ (a b : String), (decide (a ≤ b) || decide (b ≤ a)) = true := by
    intro a b
    rcases le_total a b with hab | hba
    · simp [hab]
    · simp [hba]
  have hsorted := fun l : List String => List.sorted_mergeSort htrans htotal l
  have hperm : (l₁.mergeSort fun a b => decide (a ≤ b)).Perm
      (l₂.mergeSort fun a b => decide (a ≤ b)) :=
    ((List.mergeSort_perm l₁ _).trans h).trans (List.mergeSort_perm l₂ _).symm
  have hkey : (l₁.mergeSort fun a b => decide (a ≤ b)) =
      (l₂.mergeSort fun a b => decide (a ≤ b)) :=
    List.eq_of_perm_of_sorted hperm (hsorted l₁) (hsorted l₂)
  simp only [ingredients_cache_key, hkey]

/-- Witness for C9: the key for two ingredients is order-independent. -/
theorem ingredients_cache_key_perm_invariant_witness :
    ingredients_cache_key ["rice", "chicken"] = ingredients_cache_key ["chicken", "rice"] :=
  ingredients_cache_key_perm_invariant ["rice", "chicken"] ["chicken", "rice"]
    (List.Perm.swap "chicken" "rice" [])

end RecipeFinder
